import Mathlib

/-!
Verification development for the remote Docker manager (`main.go`).

The Go program is shallowly embedded: the remote SSH channel
(`executeSSHCommand`) is abstracted as an environment `Env` mapping each
issued command string to either its stdout text (`Except.ok`) or an error
message (`Except.error`); every service call is modelled as a function of
that environment returning the ordered list of commands it issued (its
trace) together with its result.  Go string primitives (`strings.TrimSpace`,
`strings.Split`, `strings.ToLower`, `strings.Contains`) are re-implemented
over `List Char`; `goIsSpace` covers the ASCII and Latin-1 white-space
characters recognised by Go's `unicode.IsSpace`.
-/

namespace RemoteDockerManager

/-- Go `unicode.IsSpace`, restricted to the ASCII / Latin-1 fast path:
space, tab, newline, vertical tab, form feed, carriage return, NEL, NBSP. -/
def goIsSpace (c : Char) : Bool :=
  c == ' ' || c == '\t' || c == '\n' || c == '\x0b' || c == '\x0c' ||
    c == '\r' || c == '\u0085' || c == ' '

/-- Trim white space from both ends of a character list. -/
def goTrimChars (cs : List Char) : List Char :=
  ((cs.dropWhile goIsSpace).reverse.dropWhile goIsSpace).reverse

/-- Go `strings.TrimSpace`. -/
def goTrim (s : String) : String := ⟨goTrimChars s.data⟩

/-- Worker for `goSplit`: `acc` holds the current field, reversed. -/
def goSplitAux (sep : Char) : List Char → List Char → List String
  | [], acc => [⟨acc.reverse⟩]
  | c :: rest, acc =>
    if c == sep then (⟨acc.reverse⟩ : String) :: goSplitAux sep rest []
    else goSplitAux sep rest (c :: acc)

/-- Go `strings.Split` with a one-character separator (the program only
splits on `"\n"` and `"|"`). -/
def goSplit (sep : Char) (s : String) : List String := goSplitAux sep s.data []

/-- Go `strings.ToLower` (ASCII case mapping, which is all the program's
substring test depends on). -/
def goToLower (s : String) : String := ⟨s.data.map Char.toLower⟩

/-- `leadsWith pat l` : `pat` is a prefix of `l`. -/
def leadsWith : List Char → List Char → Bool
  | [], _ => true
  | _ :: _, [] => false
  | a :: as, b :: bs => a == b && leadsWith as bs

/-- `occursIn sub l` : `sub` occurs as a contiguous run inside `l`. -/
def occursIn (sub : List Char) : List Char → Bool
  | [] => sub.isEmpty
  | c :: rest => leadsWith sub (c :: rest) || occursIn sub rest

/-- Go `strings.Contains s sub`. -/
def goContains (s sub : String) : Bool := occursIn sub.data s.data

/-- `ServerConfig` from `main.go`. -/
structure ServerConfig where
  host : String
  port : String
  username : String
  password : String
deriving Repr, DecidableEq

/-- `Container` from `main.go`. -/
structure Container where
  id : String
  name : String
  image : String
  status : String
  state : String
  created : String
  ports : String
deriving Repr, DecidableEq

/-- `ContainerLog` from `main.go`. -/
structure ContainerLog where
  log : String
deriving Repr, DecidableEq

/-- The remote side of `executeSSHCommand`: each command string is mapped to
its stdout text or to a failure message. -/
def Env : Type := String → Except String String

/-- Result of a service call: the ordered list of remote commands issued,
and the value or error returned. -/
structure ExecResult (α : Type) where
  trace : List String
  result : Except String α
deriving Repr

/-- The command `"which docker"` issued by `GetContainers` / `LogContainers`. -/
def whichDockerCmd : String := "which docker"

/-- The command `"docker info"` issued by `GetContainers`. -/
def dockerInfoCmd : String := "docker info"

/-- The command `"docker ps -a"` issued by `GetContainers`. -/
def dockerPsCmd : String := "docker ps -a"

/-- The formatted listing command issued by `GetContainers`. -/
def dockerPsFormatCmd : String :=
  "docker ps -a --format \x27\x7b\x7b.ID\x7d\x7d|\x7b\x7b.Names\x7d\x7d|\x7b\x7b.Image\x7d\x7d|\x7b\x7b.Status\x7d\x7d|\x7b\x7b.CreatedAt\x7d\x7d|\x7b\x7b.Ports\x7d\x7d\x27"

/-- The log-tail command issued by `LogContainers` (note the double space,
as in the source). -/
def dockerLogsCmd (containerId : String) : String :=
  "docker logs  --tail 20 " ++ containerId ++ " 2>&1 | grep -v \x27^$\x27"

/-- The command issued by `StartContainer`. -/
def dockerStartCmd (containerID : String) : String := "docker start " ++ containerID

/-- The command issued by `StopContainer`. -/
def dockerStopCmd (containerID : String) : String := "docker stop " ++ containerID

/-- The command issued by `RestartContainer`. -/
def dockerRestartCmd (containerID : String) : String := "docker restart " ++ containerID

/-- The command issued by `RemoveContainer`. -/
def dockerRemoveCmd (containerID : String) : String := "docker rm -f " ++ containerID

/-- The SSH connectivity test issued by `configHandler`. -/
def sshTestCmd : String := "whoami && echo \x27SSH connection successful\x27"

/-- The Docker availability test issued by `configHandler`. -/
def dockerVersionCmd : String := "docker --version"

/-- `getStateFromStatus` from `main.go`:
`strings.Contains(strings.ToLower(status), "up")` decides running/stopped. -/
def getStateFromStatus (status : String) : String :=
  if goContains (goToLower status) ("up") then ("running") else ("stopped")

/-- The ports field of a parsed line: `parts[5]` trimmed when
`len(parts) > 5`, the empty string otherwise. -/
def portsOf : List String → String
  | [] => ""
  | p :: _ => goTrim p

/-- One iteration of the parse loop in `GetContainers` (lines 140-162):
trim the line, skip it when empty, split on `"|"`, build a record when at
least five fields are present, otherwise skip. -/
def parseContainerLine (rawLine : String) : Option Container :=
  if goTrim rawLine = "" then none
  else
    match goSplit '|' (goTrim rawLine) with
    | p0 :: p1 :: p2 :: p3 :: p4 :: rest =>
      some { id := goTrim p0, name := goTrim p1, image := goTrim p2,
             status := goTrim p3, state := getStateFromStatus (goTrim p3),
             created := goTrim p4, ports := portsOf rest }
    | _ => none

/-- The whole parse loop of `GetContainers` over the formatted output. -/
def parseContainers (formattedOutput : String) : List Container :=
  (goSplit '\n' formattedOutput).filterMap parseContainerLine

/-- One iteration of the parse loop in `LogContainers` (lines 90-107): trim,
skip empty lines, keep the surviving line verbatim (the source also checks
`len(parts) >= 1`, kept here as the length test). -/
def parseLogLine (rawLine : String) : Option ContainerLog :=
  if goTrim rawLine = "" then none
  else if 1 ≤ (goTrim rawLine).length then some ⟨goTrim rawLine⟩ else none

/-- The whole parse loop of `LogContainers`. -/
def parseLogs (formattedOutput : String) : List ContainerLog :=
  (goSplit '\n' formattedOutput).filterMap parseLogLine

/-- `GetContainers` from `main.go` (lines 112-165). -/
def GetContainers (env : Env) : ExecResult (List Container) :=
  match env whichDockerCmd with
  | .error e =>
    ⟨[whichDockerCmd], .error ("Docker is not installed or not in PATH: " ++ e)⟩
  | .ok _ =>
    match env dockerInfoCmd with
    | .error e =>
      ⟨[whichDockerCmd, dockerInfoCmd],
        .error ("Docker daemon is not running or permission denied: " ++ e)⟩
    | .ok _ =>
      match env dockerPsCmd with
      | .error e =>
        ⟨[whichDockerCmd, dockerInfoCmd, dockerPsCmd],
          .error ("Docker ps command failed: " ++ e)⟩
      | .ok output =>
        if goTrim output = "" then
          ⟨[whichDockerCmd, dockerInfoCmd, dockerPsCmd],
            .error ("Docker ps returned empty output")⟩
        else
          match env dockerPsFormatCmd with
          | .error e =>
            ⟨[whichDockerCmd, dockerInfoCmd, dockerPsCmd, dockerPsFormatCmd],
              .error ("Docker ps formatted command failed: " ++ e)⟩
          | .ok formattedOutput =>
            ⟨[whichDockerCmd, dockerInfoCmd, dockerPsCmd, dockerPsFormatCmd],
              .ok (parseContainers formattedOutput)⟩

/-- `LogContainers` from `main.go` (lines 80-110). -/
def LogContainers (env : Env) (containerId : String) : ExecResult (List ContainerLog) :=
  match env whichDockerCmd with
  | .error e =>
    ⟨[whichDockerCmd], .error ("Docker is not installed or not in PATH: " ++ e)⟩
  | .ok _ =>
    match env (dockerLogsCmd containerId) with
    | .error e =>
      ⟨[whichDockerCmd, dockerLogsCmd containerId],
        .error ("Docker ps formatted command failed: " ++ e)⟩
    | .ok formattedOutput =>
      ⟨[whichDockerCmd, dockerLogsCmd containerId], .ok (parseLogs formattedOutput)⟩

/-- `StartContainer` from `main.go`: a single remote command, no probes. -/
def StartContainer (env : Env) (containerID : String) : ExecResult Unit :=
  ⟨[dockerStartCmd containerID], (env (dockerStartCmd containerID)).map fun _ => ()⟩

/-- `StopContainer` from `main.go`. -/
def StopContainer (env : Env) (containerID : String) : ExecResult Unit :=
  ⟨[dockerStopCmd containerID], (env (dockerStopCmd containerID)).map fun _ => ()⟩

/-- `RestartContainer` from `main.go`. -/
def RestartContainer (env : Env) (containerID : String) : ExecResult Unit :=
  ⟨[dockerRestartCmd containerID], (env (dockerRestartCmd containerID)).map fun _ => ()⟩

/-- `RemoveContainer` from `main.go`. -/
def RemoveContainer (env : Env) (containerID : String) : ExecResult Unit :=
  ⟨[dockerRemoveCmd containerID], (env (dockerRemoveCmd containerID)).map fun _ => ()⟩

/-- The JSON envelope written by `containersHandler`: the error path encodes
`success`, `error` and an empty `containers` array (no `count` key); the
success path encodes `success`, `containers` and `count`. -/
structure ContainersResponse where
  success : Bool
  error : Option String
  containers : List Container
  count : Option Nat
deriving Repr, DecidableEq

/-- The JSON envelope written by `containerActionHandler`. -/
structure ActionResponse where
  success : Bool
  error : Option String
  message : Option String
deriving Repr, DecidableEq

/-- The JSON envelope written by `configHandler`. -/
structure ConfigResponse where
  success : Bool
  error : Option String
  message : Option String
deriving Repr, DecidableEq

/-- `containersHandler` from `main.go` (lines 546-579); the `Option Env`
argument models the global `dockerManager` (`none` = not yet configured).
The first component is the trace of remote commands issued. -/
def containersHandler (manager : Option Env) : List String × ContainersResponse :=
  match manager with
  | none =>
    ([], ⟨false, some ("No server configuration found. Please configure server first."),
      [], none⟩)
  | some env =>
    match (GetContainers env).result with
    | .error e => ((GetContainers env).trace, ⟨false, some e, [], none⟩)
    | .ok cs => ((GetContainers env).trace, ⟨true, none, cs, some cs.length⟩)

/-- Shared tail of `containerActionHandler`: turn a lifecycle call's outcome
into the response envelope. -/
def finishAction (r : ExecResult Unit) : List String × ActionResponse :=
  match r.result with
  | .error e => (r.trace, ⟨false, some e, none⟩)
  | .ok _ => (r.trace, ⟨true, none, some ("Action completed successfully")⟩)

/-- `containerActionHandler` from `main.go` (lines 581-630): dispatch on the
action verb; unknown verbs answer without touching the remote host. -/
def containerActionHandler (manager : Option Env) (containerID action : String) :
    List String × ActionResponse :=
  match manager with
  | none => ([], ⟨false, some ("No server configuration found"), none⟩)
  | some env =>
    if action = ("start") then finishAction (StartContainer env containerID)
    else if action = ("stop") then finishAction (StopContainer env containerID)
    else if action = ("restart") then finishAction (RestartContainer env containerID)
    else if action = ("remove") then finishAction (RemoveContainer env containerID)
    else ([], ⟨false, some (("Unknown action: ") ++ action), none⟩)

/-- `configHandler` from `main.go` (lines 457-520), after JSON decoding: the
field validation, then the SSH connectivity test (`whoami && echo ...`), then
the Docker availability test (`docker --version`).  `env` is the remote
behaviour reachable through the newly supplied descriptor. -/
def configHandler (env : Env) (config : ServerConfig) : List String × ConfigResponse :=
  if config.host = "" ∨ config.username = "" ∨ config.password = "" then
    ([], ⟨false, some ("Host, username and password are required"), none⟩)
  else
    match env sshTestCmd with
    | .error e => ([sshTestCmd], ⟨false, some (("SSH connection failed: ") ++ e), none⟩)
    | .ok _ =>
      match env dockerVersionCmd with
      | .error e =>
        ([sshTestCmd, dockerVersionCmd],
          ⟨false, some (("Docker is not available: ") ++ e), none⟩)
      | .ok _ =>
        ([sshTestCmd, dockerVersionCmd],
          ⟨true, none, some ("Configuration saved successfully")⟩)

/-- A listing line is kept by the parser exactly when, after trimming, it is
non-empty and splits on the delimiter into at least five fields. -/
def goodLine (l : String) : Bool :=
  !(goTrim l == "") && decide (5 ≤ (goSplit '|' (goTrim l)).length)

/-- Whether a gateway outcome is a success. -/
def isOkB {α : Type} (r : Except String α) : Bool :=
  match r with
  | .ok _ => true
  | .error _ => false

/-- The full command order of the listing path. -/
def listingProbeOrder : List String :=
  [whichDockerCmd, dockerInfoCmd, dockerPsCmd, dockerPsFormatCmd]

/-- Fixture: a remote host on which every command fails. -/
def envAllBad : Env := fun _ => Except.error ("boom")

/-- Fixture: a remote host on which every command succeeds. -/
def envAllOk : Env := fun _ => Except.ok ("ok")

/-- Fixture: probes succeed but the raw listing prints only white space. -/
def envEmptyPs : Env :=
  fun c => if c = dockerPsCmd then Except.ok (" ") else Except.ok ("ok")

/-- Fixture: probes succeed, the raw listing prints a header line, and the
structured listing prints nothing. -/
def envNoContainers : Env :=
  fun c =>
    if c = dockerPsCmd then Except.ok ("CONTAINER ID")
    else if c = dockerPsFormatCmd then Except.ok ("") else Except.ok ("ok")

/-- Fixture: Docker is absent (`which docker` fails) but every other
command, lifecycle verbs included, succeeds. -/
def envNoDockerBinary : Env :=
  fun c => if c = whichDockerCmd then Except.error ("docker missing") else Except.ok ("ok")

/-- Fixture: the presence and health probes both fail, while the SSH test
and the version check succeed. -/
def envNoProbes : Env :=
  fun c =>
    if c = whichDockerCmd then Except.error ("which failed")
    else if c = dockerInfoCmd then Except.error ("info failed")
    else Except.ok ("ok")

/-- Fixture: a fully populated connection descriptor. -/
def cfgStd : ServerConfig := ⟨("h"), ("22"), ("u"), ("p")⟩

/-- Fixture: the record parsed from the padded listing line
`" abc | web | nginx | Up | now "`. -/
def containerStd : Container :=
  ⟨("abc"), ("web"), ("nginx"), ("Up"), ("running"), ("now"), ("")⟩

/- ------------------------------------------------------------------ -/
/- Helper lemmas -/
/- ------------------------------------------------------------------ -/

theorem string_eq_of_data {s t : String} (h : s.data = t.data) : s = t := by
  cases s
  cases t
  exact congrArg String.mk h

theorem one_le_length_of_ne_empty {s : String} (h : s ≠ "") : 1 ≤ s.length := by
  obtain ⟨cs⟩ := s
  cases cs with
  | nil => exact absurd rfl h
  | cons a t =>
    show 1 ≤ (a :: t).length
    simp

theorem goTrimChars_idem (cs : List Char) :
    goTrimChars (goTrimChars cs) = goTrimChars cs := by
  have key : ∀ x : List Char,
      (List.rdropWhile goIsSpace (x.dropWhile goIsSpace)).dropWhile goIsSpace
        = List.rdropWhile goIsSpace (x.dropWhile goIsSpace) := by
    intro x
    obtain ⟨t, ht⟩ :=
      List.rdropWhile_prefix (p := goIsSpace) (l := x.dropWhile goIsSpace)
    cases hr : List.rdropWhile goIsSpace (x.dropWhile goIsSpace) with
    | nil => rfl
    | cons a r =>
      have hm : x.dropWhile goIsSpace = a :: (r ++ t) := by
        rw [← ht, hr]
        rfl
      have hpa : goIsSpace a = false := by
        cases hab : goIsSpace a with
        | false => rfl
        | true =>
          exfalso
          have h1 :
              (x.dropWhile goIsSpace).dropWhile goIsSpace = x.dropWhile goIsSpace :=
            List.dropWhile_idempotent goIsSpace x
          rw [hm, List.dropWhile_cons, hab] at h1
          simp only [if_true] at h1
          have h2 := (List.dropWhile_sublist (l := r ++ t) goIsSpace).length_le
          rw [h1] at h2
          simp at h2
      rw [List.dropWhile_cons, hpa]
      simp
  have h1 : goTrimChars cs = List.rdropWhile goIsSpace (cs.dropWhile goIsSpace) := rfl
  calc goTrimChars (goTrimChars cs)
      = List.rdropWhile goIsSpace ((goTrimChars cs).dropWhile goIsSpace) := rfl
    _ = List.rdropWhile goIsSpace (goTrimChars cs) := by rw [h1, key]
    _ = List.rdropWhile goIsSpace (List.rdropWhile goIsSpace (cs.dropWhile goIsSpace)) := by
        rw [h1]
    _ = List.rdropWhile goIsSpace (cs.dropWhile goIsSpace) :=
        List.rdropWhile_idempotent goIsSpace (cs.dropWhile goIsSpace)
    _ = goTrimChars cs := rfl

theorem goTrim_idem (s : String) : goTrim (goTrim s) = goTrim s := by
  obtain ⟨cs⟩ := s
  exact congrArg String.mk (goTrimChars_idem cs)

theorem leadsWith_iff (sub : List Char) :
    ∀ l : List Char, leadsWith sub l = true ↔ ∃ suf, l = sub ++ suf := by
  induction sub with
  | nil =>
    intro l
    simp [leadsWith]
  | cons a as ih =>
    intro l
    cases l with
    | nil =>
      simp [leadsWith]
    | cons b bs =>
      simp only [leadsWith, Bool.and_eq_true, beq_iff_eq, ih bs, List.cons_append,
        List.cons.injEq]
      constructor
      · rintro ⟨hab, suf, hsuf⟩
        exact ⟨suf, hab.symm, hsuf⟩
      · rintro ⟨suf, hab, hsuf⟩
        exact ⟨hab.symm, suf, hsuf⟩

theorem occursIn_iff (sub : List Char) :
    ∀ l : List Char, occursIn sub l = true ↔ ∃ pre suf, l = pre ++ (sub ++ suf) := by
  intro l
  induction l with
  | nil =>
    simp only [occursIn, List.isEmpty_iff]
    constructor
    · rintro rfl
      exact ⟨[], [], rfl⟩
    · rintro ⟨pre, suf, h⟩
      rcases List.append_eq_nil.mp h.symm with ⟨rfl, h2⟩
      exact (List.append_eq_nil.mp h2).1
  | cons c rest ih =>
    simp only [occursIn, Bool.or_eq_true, leadsWith_iff, ih]
    constructor
    · rintro (⟨suf, hsuf⟩ | ⟨pre, suf, hps⟩)
      · exact ⟨[], suf, by simpa using hsuf⟩
      · exact ⟨c :: pre, suf, by simp [hps]⟩
    · rintro ⟨pre, suf, hps⟩
      cases pre with
      | nil =>
        left
        exact ⟨suf, by simpa using hps⟩
      | cons d pre' =>
        right
        have hsplit : c = d ∧ rest = pre' ++ (sub ++ suf) := by simpa using hps
        exact ⟨pre', suf, hsplit.2⟩

theorem getState_running_iff (s : String) :
    getStateFromStatus s = ("running") ↔
      ∃ pre suf, (goToLower s).data = pre ++ ('u' :: 'p' :: suf) := by
  unfold getStateFromStatus goContains
  cases hb : occursIn (("up" : String).data) (goToLower s).data with
  | false =>
    simp only [hb, Bool.false_eq_true, if_false]
    constructor
    · intro h
      exact absurd h (by decide)
    · rintro ⟨pre, suf, hps⟩
      exfalso
      have hocc : occursIn (("up" : String).data) (goToLower s).data = true :=
        (occursIn_iff _ _).mpr ⟨pre, suf, hps⟩
      rw [hb] at hocc
      exact Bool.false_ne_true hocc
  | true =>
    simp only [hb, if_true]
    constructor
    · intro _
      obtain ⟨pre, suf, hps⟩ := (occursIn_iff _ _).mp hb
      exact ⟨pre, suf, hps⟩
    · intro _
      simp

theorem getState_dichotomy (s : String) :
    getStateFromStatus s = ("running") ∨ getStateFromStatus s = ("stopped") := by
  unfold getStateFromStatus
  by_cases hb : goContains (goToLower s) ("up") = true
  · left
    simp [hb]
  · right
    simp [hb]

theorem parseContainerLine_split (line p0 p1 p2 p3 p4 : String) (rest : List String)
    (h1 : goTrim line ≠ "")
    (h2 : goSplit '|' (goTrim line) = p0 :: p1 :: p2 :: p3 :: p4 :: rest) :
    parseContainerLine line =
      some ⟨goTrim p0, goTrim p1, goTrim p2, goTrim p3,
        getStateFromStatus (goTrim p3), goTrim p4, portsOf rest⟩ := by
  unfold parseContainerLine
  rw [if_neg h1, h2]

theorem parseContainerLine_short (line : String) (h1 : goTrim line ≠ "")
    (h2 : (goSplit '|' (goTrim line)).length < 5) : parseContainerLine line = none := by
  unfold parseContainerLine
  rw [if_neg h1]
  rcases hs : goSplit '|' (goTrim line) with
    _ | ⟨p0, _ | ⟨p1, _ | ⟨p2, _ | ⟨p3, _ | ⟨p4, rest⟩⟩⟩⟩⟩
  · rfl
  · rfl
  · rfl
  · rfl
  · rfl
  · exfalso
    rw [hs] at h2
    simp only [List.length_cons] at h2
    omega

theorem parseContainerLine_isSome (l : String) :
    (parseContainerLine l).isSome = goodLine l := by
  unfold parseContainerLine goodLine
  by_cases h : goTrim l = ""
  · simp [h]
  · rw [if_neg h]
    rcases hs : goSplit '|' (goTrim l) with
      _ | ⟨p0, _ | ⟨p1, _ | ⟨p2, _ | ⟨p3, _ | ⟨p4, rest⟩⟩⟩⟩⟩ <;>
      simp [h, Nat.le_add_left]

theorem length_filterMap_eq_length_filter {α β : Type} (f : α → Option β) (p : α → Bool)
    (hfp : ∀ a, (f a).isSome = p a) :
    ∀ l : List α, (l.filterMap f).length = (l.filter p).length := by
  intro l
  induction l with
  | nil => rfl
  | cons a t ih =>
    have ha := hfp a
    cases hf : f a with
    | none =>
      rw [hf] at ha
      simp only [Option.isSome_none] at ha
      simp [List.filterMap_cons, List.filter_cons, hf, ← ha, ih]
    | some b =>
      rw [hf] at ha
      simp only [Option.isSome_some] at ha
      simp [List.filterMap_cons, List.filter_cons, hf, ← ha, ih]

theorem parseLogLine_eq (line : String) :
    parseLogLine line = if goTrim line = "" then none else some ⟨goTrim line⟩ := by
  unfold parseLogLine
  by_cases h : goTrim line = ""
  · simp [h]
  · simp [h, one_le_length_of_ne_empty h]

theorem finishAction_trace (r : ExecResult Unit) : (finishAction r).1 = r.trace := by
  unfold finishAction
  cases hr : r.result <;> rfl

theorem finishAction_success (r : ExecResult Unit) :
    (finishAction r).2.success = isOkB r.result := by
  unfold finishAction isOkB
  cases hr : r.result <;> rfl

theorem isOkB_map {α β : Type} (x : Except String α) (f : α → β) :
    isOkB (x.map f) = isOkB x := by
  cases x <;> rfl

theorem ne_whichDockerCmd_of_head (s : String) (c : Char) (cs : List Char)
    (hdata : s.data = c :: cs) (hc : c ≠ 'w') : s ≠ whichDockerCmd := by
  intro he
  rw [he] at hdata
  have hw : whichDockerCmd.data = 'w' :: ("hich docker" : String).data := rfl
  rw [hw] at hdata
  injection hdata with hchar _
  exact hc hchar.symm

theorem dockerStartCmd_ne_which (i : String) : dockerStartCmd i ≠ whichDockerCmd := by
  obtain ⟨cs⟩ := i
  exact ne_whichDockerCmd_of_head _ 'd' (("ocker start " : String).data ++ cs) rfl (by decide)

theorem dockerStopCmd_ne_which (i : String) : dockerStopCmd i ≠ whichDockerCmd := by
  obtain ⟨cs⟩ := i
  exact ne_whichDockerCmd_of_head _ 'd' (("ocker stop " : String).data ++ cs) rfl (by decide)

theorem dockerRestartCmd_ne_which (i : String) : dockerRestartCmd i ≠ whichDockerCmd := by
  obtain ⟨cs⟩ := i
  exact ne_whichDockerCmd_of_head _ 'd' (("ocker restart " : String).data ++ cs) rfl (by decide)

theorem dockerRemoveCmd_ne_which (i : String) : dockerRemoveCmd i ≠ whichDockerCmd := by
  obtain ⟨cs⟩ := i
  exact ne_whichDockerCmd_of_head _ 'd' (("ocker rm -f " : String).data ++ cs) rfl (by decide)

theorem containersHandler_some_eq (env : Env) :
    containersHandler (some env) =
      match (GetContainers env).result with
      | .error e => ((GetContainers env).trace, ⟨false, some e, [], none⟩)
      | .ok cs => ((GetContainers env).trace, ⟨true, none, cs, some cs.length⟩) := rfl

theorem GetContainers_empty_raw (env : Env) (w i raw : String)
    (hw : env whichDockerCmd = Except.ok w) (hi : env dockerInfoCmd = Except.ok i)
    (hr : env dockerPsCmd = Except.ok raw) (ht : goTrim raw = "") :
    GetContainers env =
      ⟨[whichDockerCmd, dockerInfoCmd, dockerPsCmd],
        Except.error ("Docker ps returned empty output")⟩ := by
  unfold GetContainers
  rw [hw]
  dsimp only
  rw [hi]
  dsimp only
  rw [hr]
  dsimp only
  rw [if_pos ht]

theorem GetContainers_formatted (env : Env) (w i raw f : String)
    (hw : env whichDockerCmd = Except.ok w) (hi : env dockerInfoCmd = Except.ok i)
    (hr : env dockerPsCmd = Except.ok raw) (ht : goTrim raw ≠ "")
    (hf : env dockerPsFormatCmd = Except.ok f) :
    GetContainers env = ⟨listingProbeOrder, Except.ok (parseContainers f)⟩ := by
  unfold GetContainers
  rw [hw]
  dsimp only
  rw [hi]
  dsimp only
  rw [hr]
  dsimp only
  rw [if_neg ht, hf]
  rfl

theorem parseLogs_shape (ls : List String) :
    ls.filterMap parseLogLine =
      ((ls.map goTrim).filter (fun l => !(l == ""))).map ContainerLog.mk := by
  induction ls with
  | nil => rfl
  | cons a t ih =>
    rw [List.filterMap_cons, List.map_cons, List.filter_cons, parseLogLine_eq]
    by_cases h : goTrim a = ""
    · simp [h, ih]
    · simp [h, ih]

/- ------------------------------------------------------------------ -/
/- Claim theorems -/
/- ------------------------------------------------------------------ -/

/-- C1: every trimmed non-empty structured-listing line that splits on the
delimiter into at least five fields yields exactly one record, with fields
one to five taken (trimmed) from the split, the ports field defaulting to
the empty string when a sixth field is absent and taken from the sixth
field when present; every trimmed non-empty line with fewer than five
fields yields no record and does not abort the parse (the snapshot length
equals the number of qualifying lines). -/
theorem c1_structured_listing_parse :
    (∀ (line p0 p1 p2 p3 p4 : String) (rest : List String),
        goTrim line ≠ "" →
        goSplit '|' (goTrim line) = p0 :: p1 :: p2 :: p3 :: p4 :: rest →
        parseContainerLine line =
          some ⟨goTrim p0, goTrim p1, goTrim p2, goTrim p3,
            getStateFromStatus (goTrim p3), goTrim p4, portsOf rest⟩) ∧
    (∀ line : String, goTrim line ≠ "" →
        (goSplit '|' (goTrim line)).length < 5 → parseContainerLine line = none) ∧
    portsOf [] = "" ∧
    (∀ (p : String) (ps : List String), portsOf (p :: ps) = goTrim p) ∧
    (∀ text : String,
        (parseContainers text).length = ((goSplit '\n' text).filter goodLine).length) := by
  refine ⟨parseContainerLine_split, parseContainerLine_short, rfl, fun p ps => rfl, ?_⟩
  intro text
  exact length_filterMap_eq_length_filter parseContainerLine goodLine
    parseContainerLine_isSome (goSplit '\n' text)

/-- Witness for C1 at the concrete lines `"a|b|c|d|e"` and `"x|y"`. -/
theorem c1_structured_listing_parse_witness :
    parseContainerLine ("a|b|c|d|e") =
      some ⟨goTrim ("a"), goTrim ("b"), goTrim ("c"), goTrim ("d"),
        getStateFromStatus (goTrim ("d")), goTrim ("e"), portsOf []⟩ ∧
    parseContainerLine ("x|y") = none := by
  constructor
  · exact c1_structured_listing_parse.1 ("a|b|c|d|e") ("a") ("b") ("c") ("d") ("e") []
      (by decide) (by decide)
  · exact c1_structured_listing_parse.2.1 ("x|y") (by decide) (by decide)

/-- C2: the derived run-state is `"running"` exactly when the lowercase
form of the status text contains the substring `"up"`, and `"stopped"`
exactly otherwise; `"Up 3 days"` and `"UP"` derive running, while
`"Exited (0) 2 hours ago"` derives stopped. -/
theorem c2_run_state_derivation :
    (∀ s : String,
        (getStateFromStatus s = ("running") ↔
          ∃ pre suf, (goToLower s).data = pre ++ ('u' :: 'p' :: suf)) ∧
        (getStateFromStatus s = ("stopped") ↔
          ¬ ∃ pre suf, (goToLower s).data = pre ++ ('u' :: 'p' :: suf))) ∧
    getStateFromStatus ("Up 3 days") = ("running") ∧
    getStateFromStatus ("UP") = ("running") ∧
    getStateFromStatus ("Exited (0) 2 hours ago") = ("stopped") := by
  refine ⟨?_, by decide, by decide, by decide⟩
  intro s
  have hrun := getState_running_iff s
  refine ⟨hrun, ?_, ?_⟩
  · intro hstop hex
    have hr : getStateFromStatus s = ("running") := hrun.mpr hex
    rw [hstop] at hr
    exact absurd hr (by decide)
  · intro hnex
    rcases getState_dichotomy s with h | h
    · exact absurd (hrun.mp h) hnex
    · exact h

/-- C8: the log parse trims every line, drops lines that are empty after
trimming, and turns each surviving line verbatim into one log record, in
order; in particular `"line1\n\nline2\n"` yields exactly
`["line1", "line2"]`. -/
theorem c8_log_parse :
    (∀ text : String,
        parseLogs text =
          (((goSplit '\n' text).map goTrim).filter (fun l => !(l == ""))).map
            ContainerLog.mk) ∧
    parseLogs ("line1\n\nline2\n") = [⟨("line1")⟩, ⟨("line2")⟩] := by
  refine ⟨?_, by decide⟩
  intro text
  exact parseLogs_shape (goSplit '\n' text)

/-- C9: a structured-listing line with at least five fields whose first
field trims to the empty string still yields a record, whose identifier is
the empty string; the line is not rejected. -/
theorem c9_empty_identifier_kept (line p0 p1 p2 p3 p4 : String) (rest : List String)
    (h1 : goTrim line ≠ "")
    (h2 : goSplit '|' (goTrim line) = p0 :: p1 :: p2 :: p3 :: p4 :: rest)
    (h0 : goTrim p0 = "") :
    ∃ c : Container, parseContainerLine line = some c ∧ c.id = "" := by
  refine ⟨_, parseContainerLine_split line p0 p1 p2 p3 p4 rest h1 h2, h0⟩

/-- Witness for C9 at the concrete line `"|web|nginx|Up|now"`. -/
theorem c9_empty_identifier_kept_witness :
    ∃ c : Container, parseContainerLine ("|web|nginx|Up|now") = some c ∧ c.id = "" :=
  c9_empty_identifier_kept ("|web|nginx|Up|now") ("") ("web") ("nginx") ("Up") ("now") []
    (by decide) (by decide) (by decide)

/-- C10: every field of a parsed record is individually trimmed (trimming
it again changes nothing) and the run-state is derived from the trimmed
status text; the padded line `" abc | web | nginx | Up | now "` yields the
record with fields `"abc"`, `"web"`, `"nginx"`, `"Up"`, `"running"`,
`"now"`, `""`. -/
theorem c10_fields_trimmed :
    (∀ (line : String) (c : Container), parseContainerLine line = some c →
        goTrim c.id = c.id ∧ goTrim c.name = c.name ∧ goTrim c.image = c.image ∧
        goTrim c.status = c.status ∧ goTrim c.created = c.created ∧
        goTrim c.ports = c.ports ∧ c.state = getStateFromStatus c.status) ∧
    parseContainerLine (" abc | web | nginx | Up | now ") = some containerStd := by
  refine ⟨?_, by decide⟩
  intro line c hc
  unfold parseContainerLine at hc
  by_cases h : goTrim line = ""
  · rw [if_pos h] at hc
    exact absurd hc (by simp)
  · rw [if_neg h] at hc
    rcases hs : goSplit '|' (goTrim line) with
      _ | ⟨p0, _ | ⟨p1, _ | ⟨p2, _ | ⟨p3, _ | ⟨p4, rest⟩⟩⟩⟩⟩ <;> rw [hs] at hc
    · exact absurd hc (by simp)
    · exact absurd hc (by simp)
    · exact absurd hc (by simp)
    · exact absurd hc (by simp)
    · exact absurd hc (by simp)
    · have hceq := (Option.some.inj hc).symm
      subst hceq
      refine ⟨goTrim_idem p0, goTrim_idem p1, goTrim_idem p2, goTrim_idem p3,
        goTrim_idem p4, ?_, rfl⟩
      cases rest with
      | nil => rfl
      | cons q qs => exact goTrim_idem q

/-- Witness for C10 at the record parsed from the padded line. -/
theorem c10_fields_trimmed_witness :
    goTrim containerStd.id = containerStd.id ∧
    goTrim containerStd.name = containerStd.name ∧
    goTrim containerStd.image = containerStd.image ∧
    goTrim containerStd.status = containerStd.status ∧
    goTrim containerStd.created = containerStd.created ∧
    goTrim containerStd.ports = containerStd.ports ∧
    containerStd.state = getStateFromStatus containerStd.status :=
  c10_fields_trimmed.1 (" abc | web | nginx | Up | now ") containerStd (by decide)

/-- C3: the listing path issues its remote commands in the strict order
presence probe, daemon health probe, raw listing, structured listing (the
trace is always an initial segment of that order), and when the presence
probe fails the call returns the runtime-unavailable error having issued
nothing further. -/
theorem c3_probe_order_fail_fast :
    (∀ env : Env, ∃ rest, (GetContainers env).trace ++ rest = listingProbeOrder) ∧
    (∀ (env : Env) (e : String), env whichDockerCmd = Except.error e →
        GetContainers env =
          ⟨[whichDockerCmd],
            Except.error (("Docker is not installed or not in PATH: ") ++ e)⟩) := by
  constructor
  · intro env
    unfold GetContainers
    cases h1 : env whichDockerCmd with
    | error e => exact ⟨[dockerInfoCmd, dockerPsCmd, dockerPsFormatCmd], rfl⟩
    | ok o1 =>
      cases h2 : env dockerInfoCmd with
      | error e => exact ⟨[dockerPsCmd, dockerPsFormatCmd], rfl⟩
      | ok o2 =>
        cases h3 : env dockerPsCmd with
        | error e => exact ⟨[dockerPsFormatCmd], rfl⟩
        | ok output =>
          dsimp only
          by_cases h4 : goTrim output = ""
          · rw [if_pos h4]
            exact ⟨[dockerPsFormatCmd], rfl⟩
          · rw [if_neg h4]
            cases h5 : env dockerPsFormatCmd with
            | error e => exact ⟨[], rfl⟩
            | ok f => exact ⟨[], rfl⟩
  · intro env e h
    unfold GetContainers
    rw [h]

/-- Witness for C3 on a host where every command fails. -/
theorem c3_probe_order_fail_fast_witness :
    GetContainers envAllBad =
      ⟨[whichDockerCmd],
        Except.error (("Docker is not installed or not in PATH: ") ++ ("boom"))⟩ :=
  c3_probe_order_fail_fast.2 envAllBad ("boom") rfl

/-- C4: when the probes succeed, a raw listing that is empty after trimming
makes the call fail with the empty-inventory error, while a non-empty raw
listing whose structured listing parses to zero records makes the call
succeed with an empty snapshot and count `0`. -/
theorem c4_empty_output_vs_empty_snapshot :
    (∀ (env : Env) (w i raw : String),
        env whichDockerCmd = Except.ok w → env dockerInfoCmd = Except.ok i →
        env dockerPsCmd = Except.ok raw → goTrim raw = "" →
        containersHandler (some env) =
          ([whichDockerCmd, dockerInfoCmd, dockerPsCmd],
            ⟨false, some ("Docker ps returned empty output"), [], none⟩)) ∧
    (∀ (env : Env) (w i raw f : String),
        env whichDockerCmd = Except.ok w → env dockerInfoCmd = Except.ok i →
        env dockerPsCmd = Except.ok raw → goTrim raw ≠ "" →
        env dockerPsFormatCmd = Except.ok f → parseContainers f = [] →
        containersHandler (some env) = (listingProbeOrder, ⟨true, none, [], some 0⟩)) := by
  constructor
  · intro env w i raw hw hi hr ht
    rw [containersHandler_some_eq env, GetContainers_empty_raw env w i raw hw hi hr ht]
  · intro env w i raw f hw hi hr ht hf hp
    rw [containersHandler_some_eq env,
      GetContainers_formatted env w i raw f hw hi hr ht hf, hp]
    rfl

/-- Witness for C4 on a host with a blank raw listing and on a host with a
header-only raw listing and an empty structured listing. -/
theorem c4_empty_output_vs_empty_snapshot_witness :
    containersHandler (some envEmptyPs) =
      ([whichDockerCmd, dockerInfoCmd, dockerPsCmd],
        ⟨false, some ("Docker ps returned empty output"), [], none⟩) ∧
    containersHandler (some envNoContainers) =
      (listingProbeOrder, ⟨true, none, [], some 0⟩) := by
  constructor
  · exact c4_empty_output_vs_empty_snapshot.1 envEmptyPs ("ok") ("ok") (" ")
      rfl rfl rfl (by decide)
  · exact c4_empty_output_vs_empty_snapshot.2 envNoContainers ("ok") ("ok")
      ("CONTAINER ID") ("") rfl rfl rfl (by decide) rfl rfl

/-- C5: a lifecycle request whose action verb is not start, stop, restart
or remove returns the unknown-action failure and issues no remote
command. -/
theorem c5_unknown_action (env : Env) (containerID action : String)
    (h1 : action ≠ ("start")) (h2 : action ≠ ("stop"))
    (h3 : action ≠ ("restart")) (h4 : action ≠ ("remove")) :
    containerActionHandler (some env) containerID action =
      ([], ⟨false, some (("Unknown action: ") ++ action), none⟩) := by
  unfold containerActionHandler
  dsimp only
  rw [if_neg h1, if_neg h2, if_neg h3, if_neg h4]

/-- Witness for C5 at the verb `"pause"`. -/
theorem c5_unknown_action_witness :
    containerActionHandler (some envAllOk) ("abc") ("pause") =
      ([], ⟨false, some (("Unknown action: ") ++ ("pause")), none⟩) :=
  c5_unknown_action envAllOk ("abc") ("pause") (by decide) (by decide) (by decide)
    (by decide)

/-- C6 counterexample: on a host where the presence probe fails but the
start command succeeds, a start request succeeds and its trace is exactly
the start command — the presence probe is never issued and no
runtime-unavailable error occurs, contrary to the claim. -/
theorem c6_counterexample :
    envNoDockerBinary whichDockerCmd = Except.error ("docker missing") ∧
    containerActionHandler (some envNoDockerBinary) ("abc") ("start") =
      ([dockerStartCmd ("abc")],
        ⟨true, none, some ("Action completed successfully")⟩) ∧
    whichDockerCmd ∉ [dockerStartCmd ("abc")] := by
  refine ⟨rfl, rfl, ?_⟩
  decide

/-- C6 amended: lifecycle action calls issue no presence probe at all; each
issues exactly its one operation-specific command, and the call succeeds
exactly when that command succeeds. -/
theorem c6_amended_lifecycle_no_probe (env : Env) (i : String) :
    ((containerActionHandler (some env) i ("start")).1 = [dockerStartCmd i] ∧
      whichDockerCmd ∉ (containerActionHandler (some env) i ("start")).1 ∧
      (containerActionHandler (some env) i ("start")).2.success =
        isOkB (env (dockerStartCmd i))) ∧
    ((containerActionHandler (some env) i ("stop")).1 = [dockerStopCmd i] ∧
      whichDockerCmd ∉ (containerActionHandler (some env) i ("stop")).1 ∧
      (containerActionHandler (some env) i ("stop")).2.success =
        isOkB (env (dockerStopCmd i))) ∧
    ((containerActionHandler (some env) i ("restart")).1 = [dockerRestartCmd i] ∧
      whichDockerCmd ∉ (containerActionHandler (some env) i ("restart")).1 ∧
      (containerActionHandler (some env) i ("restart")).2.success =
        isOkB (env (dockerRestartCmd i))) ∧
    ((containerActionHandler (some env) i ("remove")).1 = [dockerRemoveCmd i] ∧
      whichDockerCmd ∉ (containerActionHandler (some env) i ("remove")).1 ∧
      (containerActionHandler (some env) i ("remove")).2.success =
        isOkB (env (dockerRemoveCmd i))) := by
  have hstart : containerActionHandler (some env) i ("start") =
      finishAction (StartContainer env i) := rfl
  have hstop : containerActionHandler (some env) i ("stop") =
      finishAction (StopContainer env i) := rfl
  have hrestart : containerActionHandler (some env) i ("restart") =
      finishAction (RestartContainer env i) := rfl
  have hremove : containerActionHandler (some env) i ("remove") =
      finishAction (RemoveContainer env i) := rfl
  refine ⟨⟨?_, ?_, ?_⟩, ⟨?_, ?_, ?_⟩, ⟨?_, ?_, ?_⟩, ⟨?_, ?_, ?_⟩⟩
  · rw [hstart, finishAction_trace]
    rfl
  · rw [hstart, finishAction_trace]
    have htr : (StartContainer env i).trace = [dockerStartCmd i] := rfl
    rw [htr]
    intro hmem
    rw [List.mem_singleton] at hmem
    exact dockerStartCmd_ne_which i hmem.symm
  · rw [hstart, finishAction_success]
    exact isOkB_map (env (dockerStartCmd i)) (fun _ => ())
  · rw [hstop, finishAction_trace]
    rfl
  · rw [hstop, finishAction_trace]
    have htr : (StopContainer env i).trace = [dockerStopCmd i] := rfl
    rw [htr]
    intro hmem
    rw [List.mem_singleton] at hmem
    exact dockerStopCmd_ne_which i hmem.symm
  · rw [hstop, finishAction_success]
    exact isOkB_map (env (dockerStopCmd i)) (fun _ => ())
  · rw [hrestart, finishAction_trace]
    rfl
  · rw [hrestart, finishAction_trace]
    have htr : (RestartContainer env i).trace = [dockerRestartCmd i] := rfl
    rw [htr]
    intro hmem
    rw [List.mem_singleton] at hmem
    exact dockerRestartCmd_ne_which i hmem.symm
  · rw [hrestart, finishAction_success]
    exact isOkB_map (env (dockerRestartCmd i)) (fun _ => ())
  · rw [hremove, finishAction_trace]
    rfl
  · rw [hremove, finishAction_trace]
    have htr : (RemoveContainer env i).trace = [dockerRemoveCmd i] := rfl
    rw [htr]
    intro hmem
    rw [List.mem_singleton] at hmem
    exact dockerRemoveCmd_ne_which i hmem.symm
  · rw [hremove, finishAction_success]
    exact isOkB_map (env (dockerRemoveCmd i)) (fun _ => ())

/-- C7 counterexample: a configuration request against a host where the
presence check and the daemon health check both fail is still reported
successful, and neither of those two commands appears in the trace — the
engine validates with the SSH test and the version check instead. -/
theorem c7_counterexample :
    envNoProbes whichDockerCmd = Except.error ("which failed") ∧
    envNoProbes dockerInfoCmd = Except.error ("info failed") ∧
    configHandler envNoProbes cfgStd =
      ([sshTestCmd, dockerVersionCmd],
        ⟨true, none, some ("Configuration saved successfully")⟩) ∧
    whichDockerCmd ∉ [sshTestCmd, dockerVersionCmd] ∧
    dockerInfoCmd ∉ [sshTestCmd, dockerVersionCmd] := by
  refine ⟨rfl, rfl, rfl, ?_, ?_⟩
  · decide
  · decide

/-- C7 amended: on a configuration request with non-empty host, username
and password, success is reported exactly when the SSH connectivity test
(`whoami && echo ...`) and the runtime version check (`docker --version`)
both succeed; the trace is the SSH test followed by the version check (the
version check only after the SSH test succeeds), and the presence probe
(`which docker`) and health probe (`docker info`) are never issued. -/
theorem c7_amended_config_validation (env : Env) (config : ServerConfig)
    (hh : config.host ≠ "") (hu : config.username ≠ "") (hp : config.password ≠ "") :
    (configHandler env config).2.success =
      (isOkB (env sshTestCmd) && isOkB (env dockerVersionCmd)) ∧
    (configHandler env config).1 =
      (if isOkB (env sshTestCmd) = true then [sshTestCmd, dockerVersionCmd]
        else [sshTestCmd]) ∧
    whichDockerCmd ∉ (configHandler env config).1 ∧
    dockerInfoCmd ∉ (configHandler env config).1 := by
  have hval : ¬(config.host = "" ∨ config.username = "" ∨ config.password = "") := by
    rintro (h | h | h)
    · exact hh h
    · exact hu h
    · exact hp h
  unfold configHandler
  rw [if_neg hval]
  cases h1 : env sshTestCmd with
  | error e =>
    dsimp only
    refine ⟨rfl, rfl, ?_, ?_⟩
    · decide
    · decide
  | ok o1 =>
    dsimp only
    cases h2 : env dockerVersionCmd with
    | error e =>
      dsimp only
      refine ⟨rfl, rfl, ?_, ?_⟩
      · decide
      · decide
    | ok o2 =>
      dsimp only
      refine ⟨rfl, rfl, ?_, ?_⟩
      · decide
      · decide

/-- Witness for the amended C7 on a host where every command succeeds. -/
theorem c7_amended_config_validation_witness :
    (configHandler envAllOk cfgStd).2.success =
      (isOkB (envAllOk sshTestCmd) && isOkB (envAllOk dockerVersionCmd)) ∧
    (configHandler envAllOk cfgStd).1 =
      (if isOkB (envAllOk sshTestCmd) = true then [sshTestCmd, dockerVersionCmd]
        else [sshTestCmd]) ∧
    whichDockerCmd ∉ (configHandler envAllOk cfgStd).1 ∧
    dockerInfoCmd ∉ (configHandler envAllOk cfgStd).1 :=
  c7_amended_config_validation envAllOk cfgStd (by decide) (by decide) (by decide)

end RemoteDockerManager
